import Mathlib

/-!
Shallow embedding of `src/galaxy/CustomSystem.cpp` (Pioneer's custom
star-system ingestion layer): the body/system data model, the Lua DSL
binding surface (`l_csb_*`, `l_csys_*`), the JSON document adapter
(`LoadFromJson` / `LoadSystemFromJSON`), the validator (`checks` /
`SanityChecks`) and the sector-indexed `CustomSystemsDatabase`.

Numeric conventions: the C++ `fixed` (32.32 fixed point) and `double`
values are modelled as `ℚ`; `fixed::FromDouble` is value-preserving in
this model (no claim below depends on quantisation).  Machine integers
are modelled as `Nat`/`Int`.  Lua errors (`luaL_error`, which longjmp
out and abort the current ingestion pass) are modelled as `Except`
errors; `Output`/`Log::Warning` sinks are modelled as returned warning
lists.
-/

/-- Modelled from the spec: the `SystemBody::BodyType` enumeration lives in
`galaxy/SystemBody.h`, which is not among the sources.  The spec describes a
closed set of numeric codes: gravity-point first, then a contiguous block of
star subtypes (inclusive bounds `TYPE_STAR_MIN`..`TYPE_STAR_MAX`, containing
the three black-hole variants), then planet subtypes, then station subtypes.
Concrete codes below realise exactly that layout. -/
def TYPE_GRAVPOINT : Nat := 0

/-- Modelled from the spec: first code of the contiguous star-subtype block. -/
def TYPE_STAR_MIN : Nat := 1

/-- Modelled from the spec: stellar-mass black hole, a star subtype. -/
def TYPE_STAR_S_BH : Nat := 14

/-- Modelled from the spec: intermediate-mass black hole, a star subtype. -/
def TYPE_STAR_IM_BH : Nat := 15

/-- Modelled from the spec: super-massive black hole, a star subtype. -/
def TYPE_STAR_SM_BH : Nat := 16

/-- Modelled from the spec: last code of the contiguous star-subtype block. -/
def TYPE_STAR_MAX : Nat := 16

/-- Modelled from the spec: a planet subtype (outside the star block). -/
def TYPE_PLANET_TERRESTRIAL : Nat := 30

/-- Modelled from the spec: orbital station subtype. -/
def TYPE_STARPORT_ORBITAL : Nat := 31

/-- Modelled from the spec: surface station subtype. -/
def TYPE_STARPORT_SURFACE : Nat := 32

/-- Modelled from the spec: largest valid body-type code. -/
def TYPE_MAX : Nat := 32

/-- `csb->type >= TYPE_STAR_MIN && csb->type <= TYPE_STAR_MAX`: the star-kind
test used by `count_stars` and `l_csys_bodies`. -/
def isStarType (t : Nat) : Bool := TYPE_STAR_MIN ≤ t && t ≤ TYPE_STAR_MAX

/-- The `M_PI` constant of math.h (the setters compare the raw double against
`2.0 * M_PI`; the exact constant value never matters to the claims, only that
the comparison operator is `>` rather than `>=`). -/
def M_PI : ℚ := 3.14159265358979323846

/-- `CustomSystemBody::RingStatus`. -/
inductive RingStatus where
  | WANT_RANDOM_RINGS
  | WANT_RINGS
  | WANT_NO_RINGS
  | WANT_CUSTOM_RINGS
deriving Repr, DecidableEq

/-- `CustomSystemBody` (scalar fields; the owned `children` tree of the DSL
path is represented separately by `BodyTree`, and the JSON path's forward
references live in `childIndicies`).  Field defaults follow the C++
default constructor `CustomSystemBody::CustomSystemBody()`. -/
structure CustomSystemBody where
  name : String := ""
  type : Nat := TYPE_GRAVPOINT
  radius : ℚ := 0
  aspectRatio : ℚ := 1
  mass : ℚ := 0
  averageTemp : Int := 1
  semiMajorAxis : ℚ := 0
  eccentricity : ℚ := 0
  orbitalOffset : ℚ := 0
  orbitalPhaseAtStart : ℚ := 0
  rotationalPhaseAtStart : ℚ := 0
  rotationPeriod : ℚ := 0
  axialTilt : ℚ := 0
  latitude : ℚ := 0
  longitude : ℚ := 0
  argOfPeriapsis : ℚ := 0
  metallicity : ℚ := 0
  volcanicity : ℚ := 0
  volatileGas : ℚ := 0
  volatileLiquid : ℚ := 0
  volatileIces : ℚ := 0
  atmosOxidizing : ℚ := 0
  atmosDensity : ℚ := 0
  atmosColor : Nat := 0
  life : ℚ := 0
  population : ℚ := 0
  agricultural : ℚ := 0
  spaceStationType : String := ""
  heightMapFilename : String := ""
  heightMapFractal : Nat := 0
  ringStatus : RingStatus := RingStatus.WANT_RANDOM_RINGS
  ringInnerRadius : ℚ := 0
  ringOuterRadius : ℚ := 0
  seed : Nat := 0
  want_rand_seed : Bool := true
  want_rand_offset : Bool := true
  want_rand_phase : Bool := true
  want_rand_arg_periapsis : Bool := true
  childIndicies : List Nat := []

/-- The owned-children body tree built by the DSL path: a
`CustomSystemBody` together with its `children` vector. -/
inductive BodyTree where
  | node (fields : CustomSystemBody) (children : List BodyTree)

/-- The scalar fields of a tree node. -/
def BodyTree.fields : BodyTree → CustomSystemBody
  | .node f _ => f

/-- The `children` vector of a tree node. -/
def BodyTree.children : BodyTree → List BodyTree
  | .node _ c => c

/-- `sbody->children.push_back(kid)`. -/
def BodyTree.pushChild (parent kid : BodyTree) : BodyTree :=
  .node parent.fields (parent.children ++ [kid])

/-- `l_csb_seed`: stores the seed and clears `want_rand_seed`
unconditionally. -/
def l_csb_seed (csb : CustomSystemBody) (value : Nat) : CustomSystemBody :=
  { csb with seed := value, want_rand_seed := false }

/-- `l_csb_orbital_offset`: stores the offset and clears `want_rand_offset`
unconditionally. -/
def l_csb_orbital_offset (csb : CustomSystemBody) (value : ℚ) : CustomSystemBody :=
  { csb with orbitalOffset := value, want_rand_offset := false }

/-- `l_csb_orbital_phase_at_start`: rejects `value < 0 || value > 2*M_PI`
with a hard Lua error, otherwise stores the phase and clears
`want_rand_phase`. -/
def l_csb_orbital_phase_at_start (csb : CustomSystemBody) (value : ℚ) :
    Except String CustomSystemBody :=
  if value < 0 ∨ value > 2 * M_PI then
    .error "Orbital phase at game start must be between 0 and 2 PI radians (including 0 but not 2 PI)."
  else
    .ok { csb with orbitalPhaseAtStart := value, want_rand_phase := false }

/-- `l_csb_rotational_phase_at_start`: rejects `value < 0 || value > 2*M_PI`
with a hard Lua error, otherwise stores the phase (no auto-randomize flag is
paired with this field). -/
def l_csb_rotational_phase_at_start (csb : CustomSystemBody) (value : ℚ) :
    Except String CustomSystemBody :=
  if value < 0 ∨ value > 2 * M_PI then
    .error "Rotational phase at start must be between 0 and 2 PI radians (including 0 but not 2 PI)."
  else
    .ok { csb with rotationalPhaseAtStart := value }

/-- `l_csb_aspect_ratio`: stores the ratio, then hard-errors when the stored
value is `< 1` or `> 10000`. -/
def l_csb_aspect_ratio (csb : CustomSystemBody) (value : ℚ) :
    Except String CustomSystemBody :=
  let csb := { csb with aspectRatio := value }
  if csb.aspectRatio < 1 then
    .error "Equatorial to Polar radius ratio cannot be less than 1."
  else if csb.aspectRatio > 10000 then
    .error "Equatorial to Polar radius ratio cannot be greater than 10000.0."
  else
    .ok csb

/-- The `CSB_FIELD_SETTER_FIXED` macro body (e.g. `l_csb_radius`,
`l_csb_mass`): warns (but stores anyway) on a negative value.  Returns the
updated body and the emitted warnings. -/
def csb_field_setter_fixed (store : CustomSystemBody → ℚ → CustomSystemBody)
    (csb : CustomSystemBody) (value : ℚ) : CustomSystemBody × List String :=
  (store csb value, if value < 0 then ["Value cannot be negative"] else [])

/-- `l_csb_radius` (a `CSB_FIELD_SETTER_FIXED` instance). -/
def l_csb_radius (csb : CustomSystemBody) (value : ℚ) :
    CustomSystemBody × List String :=
  csb_field_setter_fixed (fun b v => { b with radius := v }) csb value

/-- `l_csb_mass` (a `CSB_FIELD_SETTER_FIXED` instance). -/
def l_csb_mass (csb : CustomSystemBody) (value : ℚ) :
    CustomSystemBody × List String :=
  csb_field_setter_fixed (fun b v => { b with mass := v }) csb value

/-- Modelled from the spec: a resolved reference into the faction subsystem
(`Factions.h` is not among the sources); only its index is consumed here. -/
structure Faction where
  idx : Nat
deriving Repr, DecidableEq

/-- Modelled from the spec: `Faction::BAD_FACTION_IDX`, the sentinel index a
lookup returns to signal a miss. -/
def BAD_FACTION_IDX : Nat := 4294967295

/-- Modelled from the spec: `Polit::GOV_INVALID` (`Polit.h` is not among the
sources); no claim depends on its value. -/
def GOV_INVALID : Int := -1

/-- Modelled from the spec: the faction collaborator, reduced to the three
operations this layer consumes: `IsInitialized`, `RegisterCustomSystem`
(deferred name registration, valid pre-init) and `GetFaction` (resolved
lookup, valid post-init). -/
structure FactionsState where
  initialized : Bool
  factions : List (String × Nat)
  customSystemRegistry : List (String × String) := []

/-- Modelled from the spec: `Factions::GetFaction(name)` returns a reference
whose index is the sentinel `BAD_FACTION_IDX` on a miss. -/
def FactionsState.GetFaction (fs : FactionsState) (name : String) : Faction :=
  match fs.factions.lookup name with
  | some i => ⟨i⟩
  | none => ⟨BAD_FACTION_IDX⟩

/-- Modelled from the spec: `Factions::RegisterCustomSystem(sys, name)`
records a deferred (system, faction-name) pair in the registry. -/
def FactionsState.RegisterCustomSystem (fs : FactionsState)
    (sysName factionName : String) : FactionsState :=
  { fs with customSystemRegistry := fs.customSystemRegistry ++ [(sysName, factionName)] }

/-- `CustomSystem`.  Field defaults follow the C++ default constructor
`CustomSystem::CustomSystem()` (which leaves `explored` and `lawlessness`
default-constructed; no claim depends on their pre-assignment values). -/
structure CustomSystem where
  name : String := ""
  other_names : List String := []
  numStars : Nat := 0
  primaryType : List Nat := List.replicate 4 TYPE_GRAVPOINT
  sBody : Option BodyTree := none
  bodies : List CustomSystemBody := []
  seed : Nat := 0
  want_rand_seed : Bool := true
  explored : Bool := true
  want_rand_explored : Bool := true
  lawlessness : ℚ := 0
  want_rand_lawlessness : Bool := true
  faction : Option Faction := none
  govType : Int := GOV_INVALID
  shortDesc : String := ""
  longDesc : String := ""
  sectorX : Int := 0
  sectorY : Int := 0
  sectorZ : Int := 0
  systemIndex : Nat := 0

/-- `l_csys_seed`: stores the seed, then sets `want_rand_seed` to
`cs->seed == 0` (so the auto-randomize flag is re-armed when the explicit
seed is zero). -/
def l_csys_seed (cs : CustomSystem) (value : Nat) : CustomSystem :=
  let cs := { cs with seed := value }
  { cs with want_rand_seed := cs.seed == 0 }

/-- `l_csys_explored`: stores the flag and clears `want_rand_explored`
unconditionally. -/
def l_csys_explored (cs : CustomSystem) (value : Bool) : CustomSystem :=
  { cs with explored := value, want_rand_explored := false }

/-- `l_csys_lawlessness`: stores the value and clears
`want_rand_lawlessness` unconditionally. -/
def l_csys_lawlessness (cs : CustomSystem) (value : ℚ) : CustomSystem :=
  { cs with lawlessness := value, want_rand_lawlessness := false }

/-- `l_csys_faction`: when the faction subsystem is not yet initialized,
registers the deferred (system, name) pair and leaves the record's faction
reference untouched; when it is initialized, assigns the looked-up
reference and, if the lookup missed (sentinel index), raises the hard Lua
argument error "Faction not found".  The result's third component is the
raised error, if any. -/
def l_csys_faction (fs : FactionsState) (cs : CustomSystem) (factionName : String) :
    FactionsState × CustomSystem × Option String :=
  if ¬ fs.initialized then
    (fs.RegisterCustomSystem cs.name factionName, cs, none)
  else
    let cs := { cs with faction := some (fs.GetFaction factionName) }
    if (fs.GetFaction factionName).idx == BAD_FACTION_IDX then
      (fs, cs, some "Faction not found")
    else
      (fs, cs, none)

/-- The faction block of `CustomSystemsDatabase::LoadSystemFromJSON`: empty
name means no assignment; pre-init defers; post-init looks up, and on a miss
logs a warning and resets the record's faction to null instead of failing.
The third component is the list of emitted warnings. -/
def json_set_faction (fs : FactionsState) (cs : CustomSystem) (factionName : String) :
    FactionsState × CustomSystem × List String :=
  if factionName == "" then
    (fs, cs, [])
  else if ¬ fs.initialized then
    (fs.RegisterCustomSystem cs.name factionName, cs, [])
  else
    let cs := { cs with faction := some (fs.GetFaction factionName) }
    if (fs.GetFaction factionName).idx == BAD_FACTION_IDX then
      (fs, { cs with faction := none }, ["Unknown faction"])
    else
      (fs, cs, [])

/-- One element of the DSL's nested-array authoring shape: either a
constructed body userdata (with whatever children were already attached to
it) or a sub-table (child group). -/
inductive LuaElem where
  | body (b : BodyTree)
  | seq (elems : List LuaElem)

mutual

/-- `_add_children_to_sbody`: walk the array; take the next element as a
body (a table at a body position is a hard `luaL_checkudata` error, end of
array stops); then hand over to the inner loop that consumes the run of
child-group sub-tables. -/
def addChildrenToSbody : List LuaElem → BodyTree → Except String BodyTree
  | [], parent => .ok parent
  | .seq _ :: _, _ => .error "invalid body (expected a body userdata, got a table)"
  | .body kid :: rest, parent => attachGroups rest kid parent
termination_by l _ => (sizeOf l, 0)

/-- The inner `while` of `_add_children_to_sbody`: while the next element is
a sub-table, recurse into it as `kid`'s children and advance; at the first
non-table element, append `kid` to `parent->children` and resume the outer
loop on the remaining elements. -/
def attachGroups : List LuaElem → BodyTree → BodyTree → Except String BodyTree
  | .seq g :: rest, kid, parent =>
    match addChildrenToSbody g kid with
    | .error e => .error e
    | .ok kid => attachGroups rest kid parent
  | rest, kid, parent => addChildrenToSbody rest (parent.pushChild kid)
termination_by l _ _ => (sizeOf l, 1)

end

mutual

/-- `count_stars`: number of nodes in the tree whose kind lies in the
star-kind range (the node itself counted first, then its children). -/
def count_stars : BodyTree → Nat
  | .node f kids => (if isStarType f.type then 1 else 0) + count_stars_list kids

/-- The `for` loop of `count_stars` over a children vector. -/
def count_stars_list : List BodyTree → Nat
  | [] => 0
  | t :: ts => count_stars t + count_stars_list ts

end

/-- Hard errors raised by the DSL adapter; the star-count mismatch carries
exactly the `luaL_error` format arguments (expected count, system name,
found count). -/
inductive LuaError where
  | msg (text : String)
  | starCountMismatch (numStars : Nat) (sysName : String) (starCount : Nat)
deriving Repr, DecidableEq

/-- The message text of a `LuaError` (the star-count mismatch renders the
C++ format string, naming both the expected and the found count). -/
def LuaError.render : LuaError → String
  | .msg t => t
  | .starCountMismatch n name c =>
    "expected " ++ toString n ++ " star(s) in system " ++ name ++ ", but found " ++
      toString c ++ " (did you forget star types in CustomSystem:new?)"

/-- `l_csys_bodies`: checks the primary body's type (star or gravpoint, and
matching the declared first primary type), assembles the tree from the
nested array, attaches it as `cs->sBody`, then hard-errors unless the
number of star-kind nodes in the tree equals the declared `numStars`. -/
def l_csys_bodies (cs : CustomSystem) (primary : BodyTree) (bodies : List LuaElem) :
    Except LuaError CustomSystem :=
  let primary_type := primary.fields.type
  if ¬ (isStarType primary_type || primary_type == TYPE_GRAVPOINT) then
    .error (.msg "first body does not have a valid star type")
  else if primary_type ≠ cs.primaryType.headD TYPE_GRAVPOINT ∧ primary_type ≠ TYPE_GRAVPOINT then
    .error (.msg "first body type does not match the system primary star type")
  else
    match addChildrenToSbody bodies primary with
    | .error e => .error (.msg e)
    | .ok root =>
      let cs := { cs with sBody := some root }
      let star_count := count_stars root
      if star_count ≠ cs.numStars then
        .error (.starCountMismatch cs.numStars cs.name star_count)
      else
        .ok cs

/-- `checks(CustomSystemBody&)`: the per-node validator.  `factor` stands
for the physical coefficient `((G * SOL_MASS) / (LIGHT_SPEED * LIGHT_SPEED))
/ SOL_RADIUS` whose constants live in `gameconsts.h` (not among the
sources); the Schwarzschild radius implied by a mass is `2 * mass * factor`.
`Error` calls (fatal) are modelled as `Except.error`; `Output` warnings as
the returned list.  The black-hole branch never fails: it silently raises
the radius to the Schwarzschild radius and surfaces a warning. -/
def checks (factor : ℚ) (csb : CustomSystemBody) :
    Except String (CustomSystemBody × List String) :=
  if csb.name = "" then
    .error "custom system with name not set!"
  else if csb.radius ≤ 0 ∧ csb.mass ≤ 0 ∧
      csb.type ≠ TYPE_STARPORT_ORBITAL ∧ csb.type ≠ TYPE_STARPORT_SURFACE ∧
      csb.type ≠ TYPE_GRAVPOINT then
    .error "custom system body with both radius and mass left undefined!"
  else
    let warns1 :=
      if csb.radius ≤ 0 ∧ csb.type ≠ TYPE_STARPORT_ORBITAL ∧
          csb.type ≠ TYPE_STARPORT_SURFACE ∧ csb.type ≠ TYPE_GRAVPOINT then
        ["radius warning"] else []
    let warns2 :=
      if csb.mass ≤ 0 ∧ csb.type ≠ TYPE_STARPORT_ORBITAL ∧
          csb.type ≠ TYPE_STARPORT_SURFACE ∧ csb.type ≠ TYPE_GRAVPOINT then
        ["mass warning"] else []
    let warns3 :=
      if csb.averageTemp ≤ 0 ∧ csb.type ≠ TYPE_STARPORT_ORBITAL ∧
          csb.type ≠ TYPE_STARPORT_SURFACE ∧ csb.type ≠ TYPE_GRAVPOINT then
        ["averageTemp warning"] else []
    if csb.type = TYPE_STAR_S_BH ∨ csb.type = TYPE_STAR_IM_BH ∨
        csb.type = TYPE_STAR_SM_BH then
      let schwarzschild := 2 * csb.mass * factor
      if csb.radius < schwarzschild then
        .ok ({ csb with radius := schwarzschild },
          warns1 ++ warns2 ++ warns3 ++
            ["Blackhole radius defaulted to Schwarzschild radius"])
      else
        .ok (csb, warns1 ++ warns2 ++ warns3)
    else
      .ok (csb, warns1 ++ warns2 ++ warns3)

mutual

/-- `CustomSystemBody::SanityChecks()`: `checks` on this node, then
recursively on each child, in order. -/
def BodyTree.sanityChecks (factor : ℚ) : BodyTree → Except String (BodyTree × List String)
  | .node f kids =>
    match checks factor f with
    | .error e => .error e
    | .ok (f, ws) =>
      match BodyTree.sanityChecksList factor kids with
      | .error e => .error e
      | .ok (kids, ws2) => .ok (.node f kids, ws ++ ws2)

/-- The `for` loop of `SanityChecks` over a children vector. -/
def BodyTree.sanityChecksList (factor : ℚ) :
    List BodyTree → Except String (List BodyTree × List String)
  | [] => .ok ([], [])
  | t :: ts =>
    match BodyTree.sanityChecks factor t with
    | .error e => .error e
    | .ok (t, ws) =>
      match BodyTree.sanityChecksList factor ts with
      | .error e => .error e
      | .ok (ts, ws2) => .ok (t :: ts, ws ++ ws2)

end

/-- A JSON value, as far as this layer consumes one. -/
inductive JValue where
  | num (q : ℚ)
  | str (s : String)
  | jbool (b : Bool)
  | arr (elems : List JValue)
deriving Repr

/-- A JSON object: an ordered field map. -/
def JObject : Type := List (String × JValue)

/-- Field lookup in a JSON object. -/
def jlookup (obj : JObject) (key : String) : Option JValue :=
  List.lookup key obj

/-- `obj.count(key)` as used by the `want_rand_*` assignments. -/
def jcount (obj : JObject) (key : String) : Bool :=
  (jlookup obj key).isSome

/-- `obj.value<fixed>(key, default)` / `obj.value<double>(key, default)`:
the stored value when the key is present (as a number), the default
otherwise. -/
def jnum (obj : JObject) (key : String) (dflt : ℚ) : ℚ :=
  match jlookup obj key with
  | some (.num q) => q
  | _ => dflt

/-- `obj.value<uint32_t>(key, default)`. -/
def jnat (obj : JObject) (key : String) (dflt : Nat) : Nat :=
  match jlookup obj key with
  | some (.num q) => q.num.toNat
  | _ => dflt

/-- `obj.value<std::string>(key, default)`. -/
def jstr (obj : JObject) (key : String) (dflt : String) : String :=
  match jlookup obj key with
  | some (.str s) => s
  | _ => dflt

/-- Modelled from the spec: `EnumStrings::GetValue("BodyType", s)` for the
body-kind names this development mentions (the enum-string table lives
outside the sources); unknown names are irrelevant to every claim. -/
def bodyTypeFromString (s : String) : Nat :=
  if s = "GRAVPOINT" then TYPE_GRAVPOINT
  else if s = "STAR_S_BH" then TYPE_STAR_S_BH
  else if s = "STARPORT_ORBITAL" then TYPE_STARPORT_ORBITAL
  else if s = "STARPORT_SURFACE" then TYPE_STARPORT_SURFACE
  else if s = "PLANET_TERRESTRIAL" then TYPE_PLANET_TERRESTRIAL
  else TYPE_STAR_MIN

/-- `CustomSystemBody::LoadFromJson(obj)`: called on a freshly constructed
body; every field is assigned from the document with the defaults shown in
the source (absent numeric fields default to 0 — including `aspectRatio`
and `averageTemp`), values are stored as-is, and no range validation or
warning of any kind takes place.  Fields not read by the loader (e.g.
`rotationalPhaseAtStart`) keep their constructor values. -/
def CustomSystemBody.LoadFromJson (obj : JObject) : CustomSystemBody :=
  { ({} : CustomSystemBody) with
    seed := jnat obj "seed" 0
    name := jstr obj "name" ""
    type := bodyTypeFromString (jstr obj "type" "GRAVPOINT")
    radius := jnum obj "radius" 0
    aspectRatio := jnum obj "aspectRatio" 0
    mass := jnum obj "mass" 0
    rotationPeriod := jnum obj "rotationPeriod" 0
    semiMajorAxis := jnum obj "semiMajorAxis" 0
    eccentricity := jnum obj "eccentricity" 0
    orbitalOffset := jnum obj "orbitalOffset" 0
    orbitalPhaseAtStart := jnum obj "orbitalPhase" 0
    axialTilt := jnum obj "axialTilt" 0
    latitude := jnum obj "inclination" 0
    argOfPeriapsis := jnum obj "argOfPeriapsis" 0
    averageTemp := Int.ofNat (jnat obj "averageTemp" 0)
    metallicity := jnum obj "metallicity" 0
    volatileGas := jnum obj "volatileGas" 0
    volatileLiquid := jnum obj "volatileLiquid" 0
    volatileIces := jnum obj "volatileIces" 0
    volcanicity := jnum obj "volcanicity" 0
    atmosOxidizing := jnum obj "atmosOxidizing" 0
    atmosDensity := jnum obj "atmosDensity" 0
    atmosColor := jnat obj "atmosColor" 0
    life := jnum obj "life" 0
    population := jnum obj "population" 0
    agricultural := jnum obj "agricultural" 0
    spaceStationType := jstr obj "spaceStationType" ""
    heightMapFilename := jstr obj "heightMapFilename" ""
    heightMapFractal := jnat obj "heightMapFractal" 0
    want_rand_arg_periapsis := !(jcount obj "argOfPeriapsis")
    want_rand_offset := !(jcount obj "orbitalOffset")
    want_rand_phase := !(jcount obj "orbitalPhase")
    want_rand_seed := !(jcount obj "seed") }

/-- The authored `children` index list of one JSON body description
(`bodynode["children"]`, absent means no children). -/
def jchildren (obj : JObject) : List Nat :=
  match jlookup obj "children" with
  | some (.arr xs) =>
    xs.filterMap (fun v => match v with | .num q => some q.num.toNat | _ => none)
  | _ => []

/-- One iteration of the body loop of
`CustomSystemsDatabase::LoadSystemFromJSON`: parse the body, then keep
exactly the authored child indices that are `< numBodies` (each out-of-range
index is dropped with a warning and nothing else). -/
def loadOneBody (numBodies : Nat) (obj : JObject) : CustomSystemBody :=
  let body := CustomSystemBody.LoadFromJson obj
  { body with childIndicies := (jchildren obj).filter (fun i => i < numBodies) }

/-- The first pass of `LoadSystemFromJSON` over `systemdef["bodies"]`:
instantiate all bodies flat, validating child indices against the flat
list's length. -/
def loadSystemBodiesFromJSON (bodydefs : List JObject) : List CustomSystemBody :=
  bodydefs.map (loadOneBody bodydefs.length)

/-- The warnings emitted by the first pass: one per out-of-range authored
child index. -/
def bodyLoadWarnings (bodydefs : List JObject) : List String :=
  (bodydefs.map (fun obj =>
    ((jchildren obj).filter (fun i => ¬ i < bodydefs.length)).map
      (fun i => "out-of-range child index " ++ toString i))).flatten

/-- The second pass of `LoadSystemFromJSON`: materialize each body's
`children` vector by dereferencing its (already range-checked) index list
into the flat list (`body->children.push_back(sys->bodies[childIdx])`). -/
def resolveBodyChildren (bodies : List CustomSystemBody) :
    List (List CustomSystemBody) :=
  bodies.map (fun b => b.childIndicies.map (fun i => bodies.getD i {}))

/-- The parent/child edge structure of a resolved flat body list: position
`p`'s children, as positions. -/
def childMap (bodies : List CustomSystemBody) : List (List Nat) :=
  bodies.map (fun b => b.childIndicies)

/-- Fuel-bounded pre-order traversal of a child-index structure from a root
position (the C++ traversals — `count_stars`, `SanityChecks`, the
destructor — recurse exactly this way, with no visited-set or cycle
check, so on a cyclic structure they do not terminate). -/
def preorderFuel : Nat → List (List Nat) → Nat → List Nat
  | 0, _, _ => []
  | n + 1, cm, p => p :: ((cm.getD p []).map (preorderFuel n cm)).flatten

/-- `SystemPath` reduced to the sector coordinate triple this layer keys
by. -/
structure SystemPath where
  sectorX : Int
  sectorY : Int
  sectorZ : Int
deriving Repr, DecidableEq

/-- `CustomSystemsDatabase::s_emptySystemList` — the shared sentinel empty
sequence (Null Object pattern) returned for every unpopulated sector. -/
def s_emptySystemList : List CustomSystem := []

/-- `CustomSystemsDatabase`: the sector map (`std::map<SystemPath,
SystemList>`, modelled as an association list with first-match lookup) plus
the most-recently-added (path, index) bookkeeping pair. -/
structure CustomSystemsDatabase where
  sectorMap : List (SystemPath × List CustomSystem) := []
  lastAdded : Option (SystemPath × Nat) := none

/-- `m_sectorMap.find(path)`. -/
def mapFind : List (SystemPath × List CustomSystem) → SystemPath →
    Option (List CustomSystem)
  | [], _ => none
  | (q, w) :: rest, p => if q = p then some w else mapFind rest p

/-- Store a sector's sequence (replacing the existing entry, if any): the
effect of `m_sectorMap[path] = ...` mutation. -/
def mapSet : List (SystemPath × List CustomSystem) → SystemPath →
    List CustomSystem → List (SystemPath × List CustomSystem)
  | [], p, v => [(p, v)]
  | (q, w) :: rest, p, v =>
    if q = p then (p, v) :: rest else (q, w) :: mapSet rest p v

/-- `CustomSystemsDatabase::AddCustomSystem`: assigns the record's index to
the sector sequence's current length, records the (path, index) pair as most
recently added, and appends the record to the sector's sequence
(`m_sectorMap[path]` default-constructs an empty sequence for a fresh
sector). -/
def AddCustomSystem (db : CustomSystemsDatabase) (path : SystemPath)
    (csys : CustomSystem) : CustomSystemsDatabase :=
  let cur := (mapFind db.sectorMap path).getD []
  let csys := { csys with systemIndex := cur.length }
  { sectorMap := mapSet db.sectorMap path (cur ++ [csys]),
    lastAdded := some (path, csys.systemIndex) }

/-- `CustomSystemsDatabase::GetCustomSystemsForSector`: the sector's full
sequence, or the shared sentinel `s_emptySystemList` when the sector has no
entry. -/
def GetCustomSystemsForSector (db : CustomSystemsDatabase) (x y z : Int) :
    List CustomSystem :=
  match mapFind db.sectorMap ⟨x, y, z⟩ with
  | some l => l
  | none => s_emptySystemList

/-- The database invariant of the spec: every stored record's `systemIndex`
equals its position in its sector's sequence. -/
def WellIndexed (db : CustomSystemsDatabase) : Prop :=
  ∀ (p : SystemPath) (i : Nat) (c : CustomSystem),
    ((mapFind db.sectorMap p).getD [])[i]? = some c → c.systemIndex = i

/-- C1: the orbital/rotational phase-at-start setters' guard is
`value < 0 || value > 2*M_PI`, so the boundary value `2π` itself is
accepted and stored — although the setters' own error messages document
the domain as "including 0 but not 2 PI".  Both setters, applied to a
fresh body with the exact value `2 * M_PI`, succeed. -/
theorem phase_setters_accept_two_pi :
    l_csb_orbital_phase_at_start {} (2 * M_PI) =
      .ok { ({} : CustomSystemBody) with
              orbitalPhaseAtStart := 2 * M_PI, want_rand_phase := false } ∧
    l_csb_rotational_phase_at_start {} (2 * M_PI) =
      .ok { ({} : CustomSystemBody) with rotationalPhaseAtStart := 2 * M_PI } := by
  constructor <;>
    norm_num [l_csb_orbital_phase_at_start, l_csb_rotational_phase_at_start, M_PI]

/-- C9 counterexample: assigning the explicit seed `0` through the system
record's seed setter does not clear the auto-randomize flag — it leaves
`want_rand_seed` set. -/
theorem csys_seed_zero_keeps_want_rand_seed :
    (l_csys_seed {} 0).want_rand_seed = true := by
  rfl

/-- C9 (amended): every listed setter with a paired auto-randomize flag
clears that flag on explicit assignment — unconditionally for the body's
seed, orbital offset and orbital phase (on success), for a JSON-present
argument of periapsis, and for the system record's explored and
lawlessness — except the system record's seed setter, which sets the flag
to `seed == 0`: a nonzero seed clears it, an explicit zero re-arms it. -/
theorem auto_randomize_flags_cleared (csb : CustomSystemBody) (cs : CustomSystem)
    (obj : JObject) (n : Nat) (q : ℚ) (b : Bool) :
    (l_csb_seed csb n).want_rand_seed = false ∧
    (l_csb_orbital_offset csb q).want_rand_offset = false ∧
    (∀ csb', l_csb_orbital_phase_at_start csb q = .ok csb' →
      csb'.want_rand_phase = false) ∧
    (jcount obj "argOfPeriapsis" = true →
      (CustomSystemBody.LoadFromJson obj).want_rand_arg_periapsis = false) ∧
    (l_csys_explored cs b).want_rand_explored = false ∧
    (l_csys_lawlessness cs q).want_rand_lawlessness = false ∧
    (l_csys_seed cs n).want_rand_seed = (n == 0) := by
  refine ⟨rfl, rfl, ?_, ?_, rfl, rfl, rfl⟩
  · intro csb' h
    unfold l_csb_orbital_phase_at_start at h
    split at h
    · cases h
    · cases h
      rfl
  · intro h
    simp [CustomSystemBody.LoadFromJson, h]

/-- C9 witness: the amended clearing behaviour evaluated at concrete
inputs (body seed 7, orbital phase 1, a JSON body with an explicit
`argOfPeriapsis`, system seed 7). -/
theorem auto_randomize_flags_cleared_witness :
    (l_csb_seed {} 7).want_rand_seed = false ∧
    ({ ({} : CustomSystemBody) with
        orbitalPhaseAtStart := 1, want_rand_phase := false } :
      CustomSystemBody).want_rand_phase = false ∧
    (CustomSystemBody.LoadFromJson
      [("argOfPeriapsis", JValue.num 1)]).want_rand_arg_periapsis = false ∧
    (l_csys_seed {} 7).want_rand_seed = (7 == 0) := by
  obtain ⟨h1, h2, h3, h4, h5, h6, h7⟩ :=
    auto_randomize_flags_cleared {} {} [("argOfPeriapsis", JValue.num 1)] 7 1 true
  exact ⟨h1, h3 _ (by norm_num [l_csb_orbital_phase_at_start, M_PI]), h4 (by rfl), h7⟩

/-- C3: for a body of a black-hole kind, provided validation does not fail
for one of the two unrelated reasons (empty name, or both radius and mass
nonpositive), `checks` always succeeds; afterwards the radius is at least
the Schwarzschild radius implied by the (unchanged) mass, and whenever the
authored radius was below that minimum a warning is surfaced. -/
theorem blackhole_radius_ge_schwarzschild (factor : ℚ) (csb : CustomSystemBody)
    (hbh : csb.type = TYPE_STAR_S_BH ∨ csb.type = TYPE_STAR_IM_BH ∨
      csb.type = TYPE_STAR_SM_BH)
    (hname : csb.name ≠ "")
    (hdef : ¬(csb.radius ≤ 0 ∧ csb.mass ≤ 0)) :
    ∃ csb' ws, checks factor csb = .ok (csb', ws) ∧
      csb'.radius ≥ 2 * csb'.mass * factor ∧
      csb'.mass = csb.mass ∧
      (csb.radius < 2 * csb.mass * factor →
        "Blackhole radius defaulted to Schwarzschild radius" ∈ ws) := by
  have h2 : ¬ (csb.radius ≤ 0 ∧ csb.mass ≤ 0 ∧
      csb.type ≠ TYPE_STARPORT_ORBITAL ∧ csb.type ≠ TYPE_STARPORT_SURFACE ∧
      csb.type ≠ TYPE_GRAVPOINT) := fun h => hdef ⟨h.1, h.2.1⟩
  simp only [checks, if_neg hname, if_neg h2, if_pos hbh]
  by_cases hr : csb.radius < 2 * csb.mass * factor
  · simp only [if_pos hr]
    refine ⟨_, _, rfl, ?_, rfl, fun _ => ?_⟩
    · simp
    · simp
  · simp only [if_neg hr]
    exact ⟨_, _, rfl, not_lt.mp hr, rfl, fun h => absurd h hr⟩

/-- C3 witness: a stellar-mass black hole named "BH" with mass 1 and radius
0 (below the Schwarzschild radius for `factor = 1`) is validated
successfully and corrected. -/
theorem blackhole_radius_ge_schwarzschild_witness :
    ∃ csb' ws,
      checks 1 { name := "BH", type := TYPE_STAR_S_BH, mass := 1, radius := 0 } =
        .ok (csb', ws) ∧
      csb'.radius ≥ 2 * csb'.mass * 1 ∧
      csb'.mass = ({ name := "BH", type := TYPE_STAR_S_BH, mass := 1, radius := 0 } :
        CustomSystemBody).mass ∧
      (({ name := "BH", type := TYPE_STAR_S_BH, mass := 1, radius := 0 } :
          CustomSystemBody).radius <
        2 * ({ name := "BH", type := TYPE_STAR_S_BH, mass := 1, radius := 0 } :
          CustomSystemBody).mass * 1 →
        "Blackhole radius defaulted to Schwarzschild radius" ∈ ws) :=
  blackhole_radius_ge_schwarzschild 1
    { name := "BH", type := TYPE_STAR_S_BH, mass := 1, radius := 0 }
    (Or.inl rfl) (by decide) (by norm_num)

/-- C5: faction assignment before the faction subsystem is initialized
never fails and leaves the record's faction reference untouched, recording
the deferred (system, name) pair instead — in both adapters.  After
initialization, a name that misses the lookup raises the hard "Faction not
found" argument error in the DSL adapter, but in the document adapter only
logs a warning and leaves the record's faction unset. -/
theorem faction_two_phase_resolution (fs : FactionsState) (cs : CustomSystem)
    (factionName : String) :
    (fs.initialized = false →
      l_csys_faction fs cs factionName =
        (fs.RegisterCustomSystem cs.name factionName, cs, none) ∧
      (factionName ≠ "" → json_set_faction fs cs factionName =
        (fs.RegisterCustomSystem cs.name factionName, cs, []))) ∧
    (fs.initialized = true → fs.factions.lookup factionName = none →
      l_csys_faction fs cs factionName =
        (fs, { cs with faction := some ⟨BAD_FACTION_IDX⟩ }, some "Faction not found") ∧
      (factionName ≠ "" → json_set_faction fs cs factionName =
        (fs, { cs with faction := none }, ["Unknown faction"]))) := by
  constructor
  · intro h
    constructor
    · simp [l_csys_faction, h]
    · intro hn
      simp [json_set_faction, h, hn]
  · intro h hmiss
    constructor
    · simp [l_csys_faction, h, FactionsState.GetFaction, hmiss]
    · intro hn
      simp [json_set_faction, h, hn, FactionsState.GetFaction, hmiss]

/-- C5 witness: concrete evaluation — deferred registration with an
uninitialized subsystem, and the DSL-hard-error / document-warning
asymmetry on a lookup miss against an initialized, empty faction table. -/
theorem faction_two_phase_resolution_witness :
    l_csys_faction ⟨false, [], []⟩ {} "Acme" =
      (FactionsState.RegisterCustomSystem ⟨false, [], []⟩ "" "Acme", {}, none) ∧
    l_csys_faction ⟨true, [], []⟩ {} "Acme" =
      (⟨true, [], []⟩, { ({} : CustomSystem) with faction := some ⟨BAD_FACTION_IDX⟩ },
        some "Faction not found") ∧
    json_set_faction ⟨true, [], []⟩ {} "Acme" =
      (⟨true, [], []⟩, { ({} : CustomSystem) with faction := none },
        ["Unknown faction"]) := by
  refine ⟨?_, ?_, ?_⟩
  · exact ((faction_two_phase_resolution ⟨false, [], []⟩ {} "Acme").1 rfl).1
  · exact ((faction_two_phase_resolution ⟨true, [], []⟩ {} "Acme").2 rfl rfl).1
  · exact ((faction_two_phase_resolution ⟨true, [], []⟩ {} "Acme").2 rfl rfl).2
      (by decide)

/-- Storing a sector's sequence makes it the one found for that sector. -/
theorem mapFind_mapSet_self (m : List (SystemPath × List CustomSystem))
    (p : SystemPath) (v : List CustomSystem) :
    mapFind (mapSet m p v) p = some v := by
  induction m with
  | nil => simp [mapSet, mapFind]
  | cons hd tl ih =>
    obtain ⟨q, w⟩ := hd
    by_cases h : q = p
    · simp [mapSet, mapFind, h]
    · simp [mapSet, mapFind, h, ih]

/-- Storing one sector's sequence leaves every other sector's entry
unchanged. -/
theorem mapFind_mapSet_other (m : List (SystemPath × List CustomSystem))
    (p q : SystemPath) (v : List CustomSystem) (h : q ≠ p) :
    mapFind (mapSet m p v) q = mapFind m q := by
  have hpq : ¬ p = q := fun hh => h hh.symm
  induction m with
  | nil => simp [mapSet, mapFind, hpq]
  | cons hd tl ih =>
    obtain ⟨r, w⟩ := hd
    by_cases hr : r = p
    · subst hr
      simp [mapSet, mapFind, hpq]
    · simp [mapSet, mapFind, hr, ih]

/-- C7: registering a record appends it (and nothing else) to its sector's
sequence, assigning it `systemIndex` equal to the sequence's length before
the insertion; other sectors are untouched; the "stored index = position"
invariant is preserved; and the sector query returns the records in
registration order with the new record last. -/
theorem add_custom_system_index_invariant (db : CustomSystemsDatabase)
    (path : SystemPath) (csys : CustomSystem) (hWI : WellIndexed db) :
    mapFind (AddCustomSystem db path csys).sectorMap path =
      some (((mapFind db.sectorMap path).getD []) ++
        [{ csys with systemIndex := ((mapFind db.sectorMap path).getD []).length }]) ∧
    (AddCustomSystem db path csys).lastAdded =
      some (path, ((mapFind db.sectorMap path).getD []).length) ∧
    (∀ q, q ≠ path →
      mapFind (AddCustomSystem db path csys).sectorMap q = mapFind db.sectorMap q) ∧
    WellIndexed (AddCustomSystem db path csys) ∧
    GetCustomSystemsForSector (AddCustomSystem db path csys)
        path.sectorX path.sectorY path.sectorZ =
      ((mapFind db.sectorMap path).getD []) ++
        [{ csys with systemIndex := ((mapFind db.sectorMap path).getD []).length }] := by
  have hfind : mapFind (AddCustomSystem db path csys).sectorMap path =
      some (((mapFind db.sectorMap path).getD []) ++
        [{ csys with systemIndex := ((mapFind db.sectorMap path).getD []).length }]) := by
    simp [AddCustomSystem, mapFind_mapSet_self]
  have hother : ∀ q, q ≠ path →
      mapFind (AddCustomSystem db path csys).sectorMap q = mapFind db.sectorMap q := by
    intro q hq
    simp [AddCustomSystem, mapFind_mapSet_other _ _ _ _ hq]
  refine ⟨hfind, rfl, hother, ?_, ?_⟩
  · intro p i c hc
    by_cases hp : p = path
    · subst hp
      rw [hfind] at hc
      simp only [Option.getD_some] at hc
      rcases Nat.lt_or_ge i ((mapFind db.sectorMap p).getD []).length with hi | hi
      · rw [List.getElem?_append_left hi] at hc
        exact hWI p i c hc
      · rw [List.getElem?_append_right hi] at hc
        have hz : i - ((mapFind db.sectorMap p).getD []).length = 0 := by
          rcases Nat.lt_or_ge (i - ((mapFind db.sectorMap p).getD []).length) 1 with hlt | hge
          · omega
          · rw [List.getElem?_eq_none (by simpa using hge)] at hc
            cases hc
        rw [hz] at hc
        simp only [List.getElem?_cons_zero, Option.some.injEq] at hc
        subst hc
        show ((mapFind db.sectorMap p).getD []).length = i
        omega
    · rw [hother p hp] at hc
      exact hWI p i c hc
  · show (match mapFind (AddCustomSystem db path csys).sectorMap path with
      | some l => l
      | none => s_emptySystemList) = _
    rw [hfind]

/-- C7 witness: registering a record into sector (0,0,0) of an empty
database stores it with index 0 and the sector query returns exactly it;
three registrations into the same sector receive indices 0, 1, 2 in call
order and the query returns them in that order. -/
theorem add_custom_system_index_invariant_witness :
    GetCustomSystemsForSector (AddCustomSystem {} ⟨0, 0, 0⟩ {}) 0 0 0 =
      [{ ({} : CustomSystem) with systemIndex := 0 }] ∧
    (AddCustomSystem {} ⟨0, 0, 0⟩ {}).lastAdded = some (⟨0, 0, 0⟩, 0) ∧
    GetCustomSystemsForSector
        (AddCustomSystem
          (AddCustomSystem (AddCustomSystem {} ⟨0, 0, 0⟩ { name := "A" })
            ⟨0, 0, 0⟩ { name := "B" })
          ⟨0, 0, 0⟩ { name := "C" }) 0 0 0 =
      [{ ({ name := "A" } : CustomSystem) with systemIndex := 0 },
       { ({ name := "B" } : CustomSystem) with systemIndex := 1 },
       { ({ name := "C" } : CustomSystem) with systemIndex := 2 }] := by
  have h := add_custom_system_index_invariant {} ⟨0, 0, 0⟩ {}
    (by intro p i c hc; simp [mapFind] at hc)
  exact ⟨by simpa using h.2.2.2.2, by simpa using h.2.1, by rfl⟩

/-- C8: querying any sector with no entry returns the shared sentinel
`s_emptySystemList` — an empty sequence, not an error — and every such
query (any database, any unpopulated coordinate, repeated calls) returns
that same sentinel value. -/
theorem get_custom_systems_empty_sector_sentinel
    (db db' : CustomSystemsDatabase) (x y z x' y' z' : Int)
    (h : mapFind db.sectorMap ⟨x, y, z⟩ = none)
    (h' : mapFind db'.sectorMap ⟨x', y', z'⟩ = none) :
    GetCustomSystemsForSector db x y z = s_emptySystemList ∧
    s_emptySystemList = ([] : List CustomSystem) ∧
    GetCustomSystemsForSector db x y z = GetCustomSystemsForSector db' x' y' z' := by
  refine ⟨?_, rfl, ?_⟩ <;>
    simp [GetCustomSystemsForSector, h, h']

/-- C8 witness: two different never-populated coordinates of the empty
database both return the sentinel empty sequence. -/
theorem get_custom_systems_empty_sector_sentinel_witness :
    GetCustomSystemsForSector {} 0 0 0 = s_emptySystemList ∧
    s_emptySystemList = ([] : List CustomSystem) ∧
    GetCustomSystemsForSector {} 0 0 0 = GetCustomSystemsForSector {} 1 2 3 :=
  get_custom_systems_empty_sector_sentinel {} {} 0 0 0 1 2 3 rfl rfl

/-- Sequential attachment of a run of child groups into one body: the
cumulative effect of the DSL inner loop on the current `kid`. -/
def attachGroupList : List (List LuaElem) → BodyTree → Except String BodyTree
  | [], kid => .ok kid
  | g :: gs, kid =>
    match addChildrenToSbody g kid with
    | .error e => .error e
    | .ok kid => attachGroupList gs kid

/-- Whether the next element of the authoring array is a sub-table. -/
def headIsSeq : List LuaElem → Bool
  | .seq _ :: _ => true
  | _ => false

/-- The inner loop consumes exactly the maximal leading run of sub-tables,
attaching each in order into the current body, then appends that body to
the parent and resumes the outer loop. -/
theorem attachGroups_group_run (gs : List (List LuaElem)) (rest : List LuaElem)
    (kid parent : BodyTree) (h : headIsSeq rest = false) :
    attachGroups (gs.map LuaElem.seq ++ rest) kid parent =
      (match attachGroupList gs kid with
       | .error e => .error e
       | .ok kid' => addChildrenToSbody rest (parent.pushChild kid')) := by
  induction gs generalizing kid with
  | nil =>
    simp only [List.map_nil, List.nil_append, attachGroupList]
    cases rest with
    | nil => simp [attachGroups]
    | cons e t =>
      cases e with
      | body b => simp [attachGroups]
      | seq g => simp [headIsSeq] at h
  | cons g gs ih =>
    simp only [List.map_cons, List.cons_append]
    have hstep : attachGroups (LuaElem.seq g :: (gs.map LuaElem.seq ++ rest)) kid parent =
        (match addChildrenToSbody g kid with
         | .error e => .error e
         | .ok kid2 => attachGroups (gs.map LuaElem.seq ++ rest) kid2 parent) := by
      simp [attachGroups]
    rw [hstep]
    cases haux : addChildrenToSbody g kid with
    | error e => simp [attachGroupList, haux]
    | ok kid2 => simp [attachGroupList, haux, ih kid2]

/-- C6: on the DSL nested-array shape, tree assembly takes the next element
as a body `b`, then attaches every element of the following maximal run of
sub-tables — all of them — as child groups of `b` (not of each other),
appends `b` to the parent's children (at the end, preserving encounter
order), and only then moves on to the next sibling. -/
theorem dsl_child_groups_attach_to_most_recent_body (b parent : BodyTree)
    (gs : List (List LuaElem)) (rest : List LuaElem) (h : headIsSeq rest = false) :
    addChildrenToSbody (LuaElem.body b :: (gs.map LuaElem.seq ++ rest)) parent =
      (match attachGroupList gs b with
       | .error e => .error e
       | .ok kid => addChildrenToSbody rest (parent.pushChild kid)) ∧
    parent.pushChild b = .node parent.fields (parent.children ++ [b]) := by
  refine ⟨?_, rfl⟩
  have hstep : addChildrenToSbody (LuaElem.body b :: (gs.map LuaElem.seq ++ rest)) parent =
      attachGroups (gs.map LuaElem.seq ++ rest) b parent := by
    simp [addChildrenToSbody]
  rw [hstep, attachGroups_group_run gs rest b parent h]

/-- C6 witness: a body followed by two consecutive sibling child groups —
both groups attach to that body (the most recently seen one), in encounter
order, and the body becomes the parent's child. -/
theorem dsl_child_groups_attach_witness :
    addChildrenToSbody
      [LuaElem.body (.node { name := "planet" } []),
       LuaElem.seq [LuaElem.body (.node { name := "moon1" } [])],
       LuaElem.seq [LuaElem.body (.node { name := "moon2" } [])]]
      (.node { name := "star" } []) =
      .ok (.node { name := "star" }
        [.node { name := "planet" }
          [.node { name := "moon1" } [], .node { name := "moon2" } []]]) := by
  have h1 := (dsl_child_groups_attach_to_most_recent_body
    (.node { name := "planet" } []) (.node { name := "star" } [])
    [[LuaElem.body (.node { name := "moon1" } [])],
     [LuaElem.body (.node { name := "moon2" } [])]] [] rfl).1
  simp only [List.map_cons, List.map_nil, List.append_nil] at h1
  rw [h1]
  simp [attachGroupList, addChildrenToSbody, attachGroups, BodyTree.pushChild,
    BodyTree.fields, BodyTree.children]

/-- C4: for a DSL system whose primary body passes the type checks and
whose tree assembles to `root` (which is then attached as the record's
non-null tree), ingestion succeeds exactly when the number of star-kind
nodes in the tree equals the declared `numStars`; on a mismatch it raises
the hard error carrying both the expected and the found count, rendered
into a message naming both. -/
theorem star_count_cross_check (cs : CustomSystem) (primary : BodyTree)
    (bodies : List LuaElem) (root : BodyTree)
    (h1 : isStarType primary.fields.type = true ∨ primary.fields.type = TYPE_GRAVPOINT)
    (h2 : primary.fields.type = cs.primaryType.headD TYPE_GRAVPOINT ∨
      primary.fields.type = TYPE_GRAVPOINT)
    (hAdd : addChildrenToSbody bodies primary = .ok root) :
    (count_stars root = cs.numStars →
      l_csys_bodies cs primary bodies = .ok { cs with sBody := some root }) ∧
    (count_stars root ≠ cs.numStars →
      l_csys_bodies cs primary bodies =
        .error (.starCountMismatch cs.numStars cs.name (count_stars root))) ∧
    (LuaError.starCountMismatch cs.numStars cs.name (count_stars root)).render =
      "expected " ++ toString cs.numStars ++ " star(s) in system " ++ cs.name ++
        ", but found " ++ toString (count_stars root) ++
        " (did you forget star types in CustomSystem:new?)" := by
  have hb : (isStarType primary.fields.type ||
      primary.fields.type == TYPE_GRAVPOINT) = true := by
    rcases h1 with h | h
    · simp [h]
    · simp [h]
  have hh2 : ¬primary.fields.type = cs.primaryType.head?.getD TYPE_GRAVPOINT →
      primary.fields.type = TYPE_GRAVPOINT := by
    intro hh
    rcases h2 with h | h
    · rw [List.headD_eq_head?_getD] at h
      exact absurd h hh
    · exact h
  refine ⟨?_, ?_, rfl⟩
  · intro heq
    simp [l_csys_bodies, hb, hAdd, heq]
    exact hh2
  · intro hne
    simp [l_csys_bodies, hb, hAdd, hne]
    exact hh2

/-- The primary star body used by the C4 witness. -/
def wolfStar : BodyTree :=
  .node { name := "Wolf", type := TYPE_STAR_MIN } []

/-- A system record declaring one primary star (C4 witness). -/
def wolfSystem1 : CustomSystem :=
  { name := "Wolf", numStars := 1,
    primaryType := [TYPE_STAR_MIN, TYPE_GRAVPOINT, TYPE_GRAVPOINT, TYPE_GRAVPOINT] }

/-- The same record declaring two primary stars (C4 witness). -/
def wolfSystem2 : CustomSystem :=
  { wolfSystem1 with numStars := 2 }

/-- C4 witness: a single-star tree declared with `numStars = 1` ingests
successfully, while the same tree declared with `numStars = 2` fails with
the error carrying expected count 2 and found count 1. -/
theorem star_count_cross_check_witness :
    l_csys_bodies wolfSystem1 wolfStar [] =
      .ok { wolfSystem1 with sBody := some wolfStar } ∧
    l_csys_bodies wolfSystem2 wolfStar [] =
      .error (.starCountMismatch 2 "Wolf" 1) := by
  have hcount : count_stars wolfStar = 1 := by
    simp [wolfStar, count_stars, count_stars_list, BodyTree.fields, isStarType,
      TYPE_STAR_MIN, TYPE_STAR_MAX]
  constructor
  · exact (star_count_cross_check wolfSystem1 wolfStar [] wolfStar
      (Or.inl (by decide)) (Or.inl (by decide))
      (by simp [addChildrenToSbody])).1 (by rw [hcount]; rfl)
  · have h := (star_count_cross_check wolfSystem2 wolfStar [] wolfStar
      (Or.inl (by decide)) (Or.inl (by decide))
      (by simp [addChildrenToSbody])).2.1 (by rw [hcount]; decide)
    rw [hcount] at h
    exact h

/-- A JSON body description listing itself (index 0) as its own child —
the C2 counterexample input. -/
def selfLoopBodyDef : JObject :=
  [("name", JValue.str "Ouro"), ("children", JValue.arr [JValue.num 0])]

/-- C2 counterexample: the document adapter resolves a body whose child
index refers to itself without any error or warning — the self edge 0 → 0
is materialized, and a pre-order traversal of the resolved structure
revisits body 0 over and over (three visits within fuel 3) instead of
stopping with a structural error. -/
theorem json_self_child_index_not_structural_error :
    childMap (loadSystemBodiesFromJSON [selfLoopBodyDef]) = [[0]] ∧
    bodyLoadWarnings [selfLoopBodyDef] = [] ∧
    preorderFuel 3 (childMap (loadSystemBodiesFromJSON [selfLoopBodyDef])) 0 =
      [0, 0, 0] := by
  refine ⟨?_, ?_, ?_⟩ <;> rfl

/-- C2 (amended): the two-pass resolution attaches, as each body's
children, exactly its authored child indices that are in range (dropping
each out-of-range index with a warning, in order), and the second pass
dereferences exactly those kept indices into the flat list; when every
authored index is in range the edges match the authored lists exactly and
no warning is emitted.  No duplicate-parent, self-reference or cycle
detection is performed (see the counterexample). -/
theorem json_child_resolution_edges_match (bodydefs : List JObject) (p : Nat) :
    (loadSystemBodiesFromJSON bodydefs).length = bodydefs.length ∧
    (childMap (loadSystemBodiesFromJSON bodydefs))[p]? =
      bodydefs[p]?.map
        (fun obj => (jchildren obj).filter (fun i => i < bodydefs.length)) ∧
    (resolveBodyChildren (loadSystemBodiesFromJSON bodydefs))[p]? =
      ((childMap (loadSystemBodiesFromJSON bodydefs))[p]?).map
        (fun idxs => idxs.map
          (fun i => (loadSystemBodiesFromJSON bodydefs).getD i {})) ∧
    ((∀ obj ∈ bodydefs, ∀ i ∈ jchildren obj, i < bodydefs.length) →
      childMap (loadSystemBodiesFromJSON bodydefs) = bodydefs.map jchildren ∧
      bodyLoadWarnings bodydefs = []) := by
  refine ⟨?_, ?_, ?_, ?_⟩
  · simp [loadSystemBodiesFromJSON]
  · simp [childMap, loadSystemBodiesFromJSON, List.getElem?_map, loadOneBody,
      Option.map_map]
    rfl
  · simp [resolveBodyChildren, childMap, List.getElem?_map, Option.map_map]
    rfl
  · intro hall
    constructor
    · unfold childMap loadSystemBodiesFromJSON
      rw [List.map_map]
      apply List.map_congr_left
      intro obj hobj
      show (jchildren obj).filter (fun i => decide (i < bodydefs.length)) = jchildren obj
      rw [List.filter_eq_self]
      intro i hi
      simpa using hall obj hobj i hi
    · unfold bodyLoadWarnings
      rw [List.flatten_eq_nil_iff]
      intro l hl
      rw [List.mem_map] at hl
      obtain ⟨obj, hobj, rfl⟩ := hl
      have hfil : (jchildren obj).filter (fun i => ¬ i < bodydefs.length) = [] := by
        rw [List.filter_eq_nil_iff]
        intro i hi
        simpa using hall obj hobj i hi
      rw [hfil]
      rfl

/-- The two-body flat list used by the C2 witness: the root references body
1 as its child; all indices are in range. -/
def twoBodyDefs : List JObject :=
  [[("name", JValue.str "root"), ("children", JValue.arr [JValue.num 1])],
   [("name", JValue.str "moon")]]

/-- C2 witness: on a well-formed two-body document whose indices are all in
range, the resolved edges match the authored index lists exactly and no
warning is emitted. -/
theorem json_child_resolution_edges_match_witness :
    childMap (loadSystemBodiesFromJSON twoBodyDefs) = [[1], []] ∧
    bodyLoadWarnings twoBodyDefs = [] := by
  obtain ⟨-, -, -, h4⟩ := json_child_resolution_edges_match twoBodyDefs 0
  obtain ⟨he, hw⟩ := h4 (by decide)
  refine ⟨?_, hw⟩
  rw [he]
  rfl

/-- C10: the document-adapter body loader performs no range validation and
emits no diagnostics: for any authored values, an `aspectRatio` of `r`
(even 0, below the DSL minimum of 1) and an `orbitalPhase` of `q` (even
outside `[0, 2π)`) are stored as-is, `averageTemp` absent from the document
defaults to 0 (as do absent numeric fields such as `aspectRatio` and
`radius`) — while the DSL setters hard-reject the same values. -/
theorem json_body_loader_no_validation (r q : ℚ) :
    (CustomSystemBody.LoadFromJson
      [("aspectRatio", JValue.num r), ("orbitalPhase", JValue.num q)]).aspectRatio = r ∧
    (CustomSystemBody.LoadFromJson
      [("aspectRatio", JValue.num r), ("orbitalPhase", JValue.num q)]).orbitalPhaseAtStart = q ∧
    (CustomSystemBody.LoadFromJson
      [("aspectRatio", JValue.num r), ("orbitalPhase", JValue.num q)]).averageTemp = 0 ∧
    (CustomSystemBody.LoadFromJson []).aspectRatio = 0 ∧
    (CustomSystemBody.LoadFromJson []).radius = 0 ∧
    l_csb_aspect_ratio {} 0 =
      .error "Equatorial to Polar radius ratio cannot be less than 1." ∧
    (q > 2 * M_PI → l_csb_orbital_phase_at_start {} q =
      .error "Orbital phase at game start must be between 0 and 2 PI radians (including 0 but not 2 PI).") := by
  refine ⟨rfl, rfl, rfl, rfl, rfl, by norm_num [l_csb_aspect_ratio], ?_⟩
  intro hq
  simp [l_csb_orbital_phase_at_start, hq]

/-- C10 witness: a JSON body with `aspectRatio` 0 and `orbitalPhase` 7
(outside `[0, 2π)`) loads without any diagnostic, storing both values
as-is with `averageTemp` 0, while the DSL phase setter rejects 7. -/
theorem json_body_loader_no_validation_witness :
    (CustomSystemBody.LoadFromJson
      [("aspectRatio", JValue.num 0), ("orbitalPhase", JValue.num 7)]).aspectRatio = 0 ∧
    (CustomSystemBody.LoadFromJson
      [("aspectRatio", JValue.num 0), ("orbitalPhase", JValue.num 7)]).orbitalPhaseAtStart = 7 ∧
    (CustomSystemBody.LoadFromJson
      [("aspectRatio", JValue.num 0), ("orbitalPhase", JValue.num 7)]).averageTemp = 0 ∧
    l_csb_orbital_phase_at_start {} 7 =
      .error "Orbital phase at game start must be between 0 and 2 PI radians (including 0 but not 2 PI)." := by
  obtain ⟨h1, h2, h3, -, -, -, h7⟩ := json_body_loader_no_validation 0 7
  exact ⟨h1, h2, h3, h7 (by norm_num [M_PI])⟩
